import Mathlib

/-!
Shallow embedding of the echo-anki pipeline (src/index.js, src/unnamed/part_000,
src/unnamed/part_001, src/unnamed/part_002) and proofs about the claims of the
specification.  JavaScript strings are modelled as `List Char` (wrapped back
into `String` at the interfaces), the regular-expression operations used by the
code are modelled by hand-written scanners that follow ECMAScript semantics
(JS `\w` is ASCII letters, digits and underscore; `.` does not match line
terminators; a replacement string interprets the dollar substitution patterns),
and the effectful pipeline entry points are modelled as pure functions from an
environment describing the external services to a trace of observable effects.
-/

namespace EchoAnki

/-! Characters that are awkward to write as literals. -/

/-- The double-quote character. -/
def quoteChar : Char := Char.ofNat 34

/-- The apostrophe character. -/
def aposChar : Char := Char.ofNat 39

/-- The backtick character, used by the JS replacement pattern for the
portion of the string preceding the match. -/
def backtickChar : Char := Char.ofNat 96

/-- The dollar character starting the JS replacement substitution patterns. -/
def dollarChar : Char := '$'

/-- The ampersand character (the JS pattern for the matched substring). -/
def ampChar : Char := '&'

/-- Line terminators recognised by ECMAScript (`\n`, `\r`, U+2028, U+2029);
the regex metacharacter `.` matches any character except these. -/
def isLineTerm (c : Char) : Bool :=
  c.toNat = 10 || c.toNat = 13 || c.toNat = 0x2028 || c.toNat = 0x2029

/-- The ECMAScript whitespace class `\s` (also the set trimmed by
`String.prototype.trim`). -/
def isJsSpace (c : Char) : Bool :=
  (9 ≤ c.toNat && c.toNat ≤ 13) || c.toNat = 32 || c.toNat = 160 ||
  c.toNat = 0x1680 || (0x2000 ≤ c.toNat && c.toNat ≤ 0x200A) ||
  c.toNat = 0x2028 || c.toNat = 0x2029 || c.toNat = 0x202F ||
  c.toNat = 0x205F || c.toNat = 0x3000 || c.toNat = 0xFEFF

/-- The ECMAScript word-character class `\w`: ASCII letters, digits and
underscore. -/
def isJsWordChar (c : Char) : Bool :=
  ('a' ≤ c && c ≤ 'z') || ('A' ≤ c && c ≤ 'Z') || ('0' ≤ c && c ≤ '9') || c = '_'

/-- A character allowed by the single-token character class `[\w\-']` used by
`determineInputType` and `highlightTargetText`. -/
def isWordTokenChar (c : Char) : Bool :=
  isJsWordChar c || c = '-' || c = aposChar

/-- Model of `String.prototype.trim`. -/
def jsTrim (l : List Char) : List Char :=
  ((l.dropWhile isJsSpace).reverse.dropWhile isJsSpace).reverse

/-! Input classifier (`determineInputType` in part_001 and part_002). -/

/-- The test `/^[\w\-']+$/i.test t`: `t` is non-empty and consists solely of
word characters, hyphens and apostrophes. -/
def wordShape (t : List Char) : Bool :=
  !t.isEmpty && t.all isWordTokenChar

/-- The test `/[.!?]$/.test t`: the last character is `.`, `!` or `?`.
Without the multiline flag, `$` in ECMAScript matches only at the very end of
the string. -/
def endsSentencePunct (t : List Char) : Bool :=
  match t.getLast? with
  | some c => c = '.' || c = '!' || c = '?'
  | none => false

/-- Counts the maximal runs of `\w` characters in a list.  The flag records
whether the previous character was a word character. -/
def countTokensAux : Bool → List Char → Nat
  | _, [] => 0
  | prevWord, c :: cs =>
    (if isJsWordChar c && !prevWord then 1 else 0) + countTokensAux (isJsWordChar c) cs

/-- Splits a list at ECMAScript line terminators. -/
def splitOnLineTerm : List Char → List (List Char)
  | [] => [[]]
  | c :: cs =>
    if isLineTerm c then [] :: splitOnLineTerm cs
    else
      match splitOnLineTerm cs with
      | [] => [[c]]
      | line :: rest => (c :: line) :: rest

/-- The test `/\b\w+\b.*\b\w+\b/i.test t`.  The pattern requires two maximal
word-character runs with only non-line-terminator characters between them
(ECMAScript `.` does not match line terminators), which holds exactly when
some single line of `t` contains at least two word tokens. -/
def hasTwoTokensSameLine (t : List Char) : Bool :=
  (splitOnLineTerm t).any (fun line => 2 ≤ countTokensAux false line)

/-- Counts the word tokens of the whole text, regardless of line structure.
This is the specification-level notion of "contains at least two separate
word tokens". -/
def countWordTokens (t : List Char) : Nat :=
  countTokensAux false t

/-- Model of `determineInputType` (part_001 lines 46-61, part_002 lines
62-77): trim, first test for a single word, then for a sentence, otherwise a
phrase. -/
def determineInputType (input : String) : String :=
  let trimmed := jsTrim input.data
  if wordShape trimmed then "word"
  else if endsSentencePunct trimmed && hasTwoTokensSameLine trimmed then "sentence"
  else "phrase"

/-! Text-generation client post-processing (`callChatGPT`). -/

/-- The trailing-period strip performed by `callChatGPT`: if the content ends
with a literal period, the last character is dropped (`content.slice(0, -1)`),
otherwise the content is returned unchanged. -/
def stripTrailingPeriod (l : List Char) : List Char :=
  if l.getLast? = some '.' then l.dropLast else l

/-- String-level wrapper of `stripTrailingPeriod`; the post-processing the
text-generation client applies to every reply. -/
def chatContentPostProcess (content : String) : String :=
  String.mk (stripTrailingPeriod content.data)

/-- A message returned by the generation endpoint. -/
structure ChatMessage where
  content : String
deriving DecidableEq

/-- A choice of the generation endpoint's response. -/
structure ChatChoice where
  message : ChatMessage
deriving DecidableEq

/-- The response of the generation endpoint, as used by `callChatGPT`:
a list of choices (the first one is read) and the usage counter that is only
logged. -/
structure ChatResponse where
  choices : List ChatChoice
  totalTokens : Nat
deriving DecidableEq

/-- Model of `callChatGPT` (index.js lines 15-55, part_001 lines 16-39,
part_002 lines 15-55).  The request outcome is passed in: a transport or API
error — or a malformed response whose field accesses would throw — is caught
by the surrounding `try`/`catch` and turned into the empty string; otherwise
the first choice's content is post-processed and returned. -/
def callChatGPT (outcome : Except String ChatResponse) : String :=
  match outcome with
  | Except.error _ => ""
  | Except.ok resp =>
    match resp.choices.head? with
    | none => ""
    | some choice => chatContentPostProcess choice.message.content

/-! The JS string-replacement engine.

`String.prototype.replace` and `String.prototype.replaceAll` with a string
replacement argument interpret the substitution patterns `$$`, `$&`, `` $` ``
and `$'` inside the replacement (ECMAScript `GetSubstitution`); any other
dollar sequence is copied literally. -/

/-- ECMAScript `GetSubstitution` for a pattern without capture groups:
`matched` is the matched substring, `before` and `after` are the portions of
the subject before and after the match, and the last argument is the
replacement template. -/
def getSubstAux (matched before after : List Char) : List Char → List Char
  | [] => []
  | [c] => [c]
  | c :: d :: ds =>
    if c = dollarChar then
      if d = dollarChar then dollarChar :: getSubstAux matched before after ds
      else if d = ampChar then matched ++ getSubstAux matched before after ds
      else if d = backtickChar then before ++ getSubstAux matched before after ds
      else if d = aposChar then after ++ getSubstAux matched before after ds
      else dollarChar :: d :: getSubstAux matched before after ds
    else c :: getSubstAux matched before after (d :: ds)

/-- `getSubstAux` with the template first, for partial application. -/
def getSubstitution (tmpl matched before after : List Char) : List Char :=
  getSubstAux matched before after tmpl

/-- One global left-to-right replacement scan, the common core of the JS
`replace`/`replaceAll` calls of the code.  `matchAt before rem` decides
whether a match starts at the current position (`before` is the prefix
already scanned, `rem` the remainder) and returns the matched prefix of
`rem`; `rep matched before after` produces the text emitted for a match.
After a zero-length match the scan emits one character and advances, as the
JS engine does.  The fuel argument dominates the number of scan steps;
`rem.length + 1` is always sufficient, and exhausted fuel returns the
remainder unchanged. -/
def replaceScanG (matchAt : List Char → List Char → Option (List Char))
    (rep : List Char → List Char → List Char → List Char) :
    Nat → List Char → List Char → List Char
  | 0, _, rem => rem
  | _ + 1, before, [] =>
    match matchAt before [] with
    | some _ => rep [] before []
    | none => []
  | fuel + 1, before, c :: cs =>
    match matchAt before (c :: cs) with
    | none => c :: replaceScanG matchAt rep fuel (before ++ [c]) cs
    | some [] => rep [] before (c :: cs) ++ c :: replaceScanG matchAt rep fuel (before ++ [c]) cs
    | some (m :: ms) =>
      rep (m :: ms) before ((c :: cs).drop (ms.length + 1)) ++
        replaceScanG matchAt rep fuel (before ++ m :: ms) ((c :: cs).drop (ms.length + 1))

/-- Matcher for a literal search string: a match is the search string itself
whenever it is a prefix of the remainder; the empty search string matches
(with length zero) at every position, as in JS `replaceAll("")`. -/
def litMatch (search : List Char) (_before rem : List Char) : Option (List Char) :=
  if search.isEmpty then some []
  else if search.isPrefixOf rem then some search else none

/-- Model of `template.replaceAll(search, rep)` for string arguments,
including the dollar substitution patterns of the replacement. -/
def jsReplaceAll (s search rep : String) : String :=
  String.mk (replaceScanG (litMatch search.data) (getSubstitution rep.data)
    (s.data.length + 1) [] s.data)

/-- Replacement of every occurrence of `search` by the replacement text
itself, with no dollar-pattern interpretation.  This is the specification's
description of the Prompt Builder ("replaces every occurrence of each named
placeholder with its value"). -/
def literalReplaceAll (s search rep : String) : String :=
  String.mk (replaceScanG (litMatch search.data) (fun _ _ _ => rep.data)
    (s.data.length + 1) [] s.data)

/-- The Prompt Builder of the specification: folds a substitution map over
the template with chained `replaceAll` calls, exactly as
`generateSentenceFromKnownWords` and `generateSentenceFromPhrase` do. -/
def promptBuild (template : String) (substitutions : List (String × String)) : String :=
  substitutions.foldl (fun acc pv => jsReplaceAll acc pv.fst pv.snd) template

/-- The difficulty label chosen by `generateSentenceFromPhrase` (part_001
lines 69-82, part_002 lines 100-113): `b1` and `b2` get their own labels and
every other difficulty string falls through to the beginner label. -/
def difficultyLevel (difficulty : String) : String :=
  if difficulty = "b1" then "intermediate (B1)"
  else if difficulty = "b2" then "advanced (B2)"
  else "beginner (A2)"

/-- The prompt built by `generateSentenceFromPhrase`: the phrase template
with the target phrase, the difficulty label and the target language
substituted by chained `replaceAll` calls. -/
def generateSentenceFromPhrasePrompt (template targetPhrase difficulty targetLanguage : String) :
    String :=
  jsReplaceAll
    (jsReplaceAll (jsReplaceAll template "<target-phrase>" targetPhrase)
      "<DIFFICULTY_LEVEL>" (difficultyLevel difficulty))
    "<TARGET_LANGUAGE>" targetLanguage

/-! Highlighter (`highlightTargetText`, part_001 lines 222-233, part_002
lines 211-222). -/

/-- Characters of the Basic Multilingual Plane whose Unicode uppercase
mapping is a single character different from themselves, paired with that
uppercase character (code points, sorted ascending).  ASCII is handled
separately; the two non-ASCII characters whose uppercase is ASCII (dotless i
and long s) are omitted, because ECMAScript `Canonicalize` leaves a
non-ASCII character unchanged when its uppercase would be ASCII, just as it
leaves characters with a multi-character uppercase (such as the sharp s)
unchanged.  Supplementary-plane characters are surrogate pairs for a regex
without the `u` flag and are never case-folded by one. -/
def jsUpperTable : List (Nat × Nat) := [
  (181, 924), (224, 192), (225, 193), (226, 194), (227, 195), (228, 196), (229, 197), (230, 198),
  (231, 199), (232, 200), (233, 201), (234, 202), (235, 203), (236, 204), (237, 205), (238, 206),
  (239, 207), (240, 208), (241, 209), (242, 210), (243, 211), (244, 212), (245, 213), (246, 214),
  (248, 216), (249, 217), (250, 218), (251, 219), (252, 220), (253, 221), (254, 222), (255, 376),
  (257, 256), (259, 258), (261, 260), (263, 262), (265, 264), (267, 266), (269, 268), (271, 270),
  (273, 272), (275, 274), (277, 276), (279, 278), (281, 280), (283, 282), (285, 284), (287, 286),
  (289, 288), (291, 290), (293, 292), (295, 294), (297, 296), (299, 298), (301, 300), (303, 302),
  (307, 306), (309, 308), (311, 310), (314, 313), (316, 315), (318, 317), (320, 319), (322, 321),
  (324, 323), (326, 325), (328, 327), (331, 330), (333, 332), (335, 334), (337, 336), (339, 338),
  (341, 340), (343, 342), (345, 344), (347, 346), (349, 348), (351, 350), (353, 352), (355, 354),
  (357, 356), (359, 358), (361, 360), (363, 362), (365, 364), (367, 366), (369, 368), (371, 370),
  (373, 372), (375, 374), (378, 377), (380, 379), (382, 381), (384, 579), (387, 386), (389, 388),
  (392, 391), (396, 395), (402, 401), (405, 502), (409, 408), (410, 573), (414, 544), (417, 416),
  (419, 418), (421, 420), (424, 423), (429, 428), (432, 431), (436, 435), (438, 437), (441, 440),
  (445, 444), (447, 503), (453, 452), (454, 452), (456, 455), (457, 455), (459, 458), (460, 458),
  (462, 461), (464, 463), (466, 465), (468, 467), (470, 469), (472, 471), (474, 473), (476, 475),
  (477, 398), (479, 478), (481, 480), (483, 482), (485, 484), (487, 486), (489, 488), (491, 490),
  (493, 492), (495, 494), (498, 497), (499, 497), (501, 500), (505, 504), (507, 506), (509, 508),
  (511, 510), (513, 512), (515, 514), (517, 516), (519, 518), (521, 520), (523, 522), (525, 524),
  (527, 526), (529, 528), (531, 530), (533, 532), (535, 534), (537, 536), (539, 538), (541, 540),
  (543, 542), (547, 546), (549, 548), (551, 550), (553, 552), (555, 554), (557, 556), (559, 558),
  (561, 560), (563, 562), (572, 571), (575, 11390), (576, 11391), (578, 577), (583, 582),
  (585, 584), (587, 586), (589, 588), (591, 590), (592, 11375), (593, 11373), (594, 11376),
  (595, 385), (596, 390), (598, 393), (599, 394), (601, 399), (603, 400), (604, 42923),
  (608, 403), (609, 42924), (611, 404), (613, 42893), (614, 42922), (616, 407), (617, 406),
  (618, 42926), (619, 11362), (620, 42925), (623, 412), (625, 11374), (626, 413), (629, 415),
  (637, 11364), (640, 422), (642, 42949), (643, 425), (647, 42929), (648, 430), (649, 580),
  (650, 433), (651, 434), (652, 581), (658, 439), (669, 42930), (670, 42928), (837, 921),
  (881, 880), (883, 882), (887, 886), (891, 1021), (892, 1022), (893, 1023), (940, 902),
  (941, 904), (942, 905), (943, 906), (945, 913), (946, 914), (947, 915), (948, 916), (949, 917),
  (950, 918), (951, 919), (952, 920), (953, 921), (954, 922), (955, 923), (956, 924), (957, 925),
  (958, 926), (959, 927), (960, 928), (961, 929), (962, 931), (963, 931), (964, 932), (965, 933),
  (966, 934), (967, 935), (968, 936), (969, 937), (970, 938), (971, 939), (972, 908), (973, 910),
  (974, 911), (976, 914), (977, 920), (981, 934), (982, 928), (983, 975), (985, 984), (987, 986),
  (989, 988), (991, 990), (993, 992), (995, 994), (997, 996), (999, 998), (1001, 1000),
  (1003, 1002), (1005, 1004), (1007, 1006), (1008, 922), (1009, 929), (1010, 1017), (1011, 895),
  (1013, 917), (1016, 1015), (1019, 1018), (1072, 1040), (1073, 1041), (1074, 1042),
  (1075, 1043), (1076, 1044), (1077, 1045), (1078, 1046), (1079, 1047), (1080, 1048),
  (1081, 1049), (1082, 1050), (1083, 1051), (1084, 1052), (1085, 1053), (1086, 1054),
  (1087, 1055), (1088, 1056), (1089, 1057), (1090, 1058), (1091, 1059), (1092, 1060),
  (1093, 1061), (1094, 1062), (1095, 1063), (1096, 1064), (1097, 1065), (1098, 1066),
  (1099, 1067), (1100, 1068), (1101, 1069), (1102, 1070), (1103, 1071), (1104, 1024),
  (1105, 1025), (1106, 1026), (1107, 1027), (1108, 1028), (1109, 1029), (1110, 1030),
  (1111, 1031), (1112, 1032), (1113, 1033), (1114, 1034), (1115, 1035), (1116, 1036),
  (1117, 1037), (1118, 1038), (1119, 1039), (1121, 1120), (1123, 1122), (1125, 1124),
  (1127, 1126), (1129, 1128), (1131, 1130), (1133, 1132), (1135, 1134), (1137, 1136),
  (1139, 1138), (1141, 1140), (1143, 1142), (1145, 1144), (1147, 1146), (1149, 1148),
  (1151, 1150), (1153, 1152), (1163, 1162), (1165, 1164), (1167, 1166), (1169, 1168),
  (1171, 1170), (1173, 1172), (1175, 1174), (1177, 1176), (1179, 1178), (1181, 1180),
  (1183, 1182), (1185, 1184), (1187, 1186), (1189, 1188), (1191, 1190), (1193, 1192),
  (1195, 1194), (1197, 1196), (1199, 1198), (1201, 1200), (1203, 1202), (1205, 1204),
  (1207, 1206), (1209, 1208), (1211, 1210), (1213, 1212), (1215, 1214), (1218, 1217),
  (1220, 1219), (1222, 1221), (1224, 1223), (1226, 1225), (1228, 1227), (1230, 1229),
  (1231, 1216), (1233, 1232), (1235, 1234), (1237, 1236), (1239, 1238), (1241, 1240),
  (1243, 1242), (1245, 1244), (1247, 1246), (1249, 1248), (1251, 1250), (1253, 1252),
  (1255, 1254), (1257, 1256), (1259, 1258), (1261, 1260), (1263, 1262), (1265, 1264),
  (1267, 1266), (1269, 1268), (1271, 1270), (1273, 1272), (1275, 1274), (1277, 1276),
  (1279, 1278), (1281, 1280), (1283, 1282), (1285, 1284), (1287, 1286), (1289, 1288),
  (1291, 1290), (1293, 1292), (1295, 1294), (1297, 1296), (1299, 1298), (1301, 1300),
  (1303, 1302), (1305, 1304), (1307, 1306), (1309, 1308), (1311, 1310), (1313, 1312),
  (1315, 1314), (1317, 1316), (1319, 1318), (1321, 1320), (1323, 1322), (1325, 1324),
  (1327, 1326), (1377, 1329), (1378, 1330), (1379, 1331), (1380, 1332), (1381, 1333),
  (1382, 1334), (1383, 1335), (1384, 1336), (1385, 1337), (1386, 1338), (1387, 1339),
  (1388, 1340), (1389, 1341), (1390, 1342), (1391, 1343), (1392, 1344), (1393, 1345),
  (1394, 1346), (1395, 1347), (1396, 1348), (1397, 1349), (1398, 1350), (1399, 1351),
  (1400, 1352), (1401, 1353), (1402, 1354), (1403, 1355), (1404, 1356), (1405, 1357),
  (1406, 1358), (1407, 1359), (1408, 1360), (1409, 1361), (1410, 1362), (1411, 1363),
  (1412, 1364), (1413, 1365), (1414, 1366), (4304, 7312), (4305, 7313), (4306, 7314),
  (4307, 7315), (4308, 7316), (4309, 7317), (4310, 7318), (4311, 7319), (4312, 7320),
  (4313, 7321), (4314, 7322), (4315, 7323), (4316, 7324), (4317, 7325), (4318, 7326),
  (4319, 7327), (4320, 7328), (4321, 7329), (4322, 7330), (4323, 7331), (4324, 7332),
  (4325, 7333), (4326, 7334), (4327, 7335), (4328, 7336), (4329, 7337), (4330, 7338),
  (4331, 7339), (4332, 7340), (4333, 7341), (4334, 7342), (4335, 7343), (4336, 7344),
  (4337, 7345), (4338, 7346), (4339, 7347), (4340, 7348), (4341, 7349), (4342, 7350),
  (4343, 7351), (4344, 7352), (4345, 7353), (4346, 7354), (4349, 7357), (4350, 7358),
  (4351, 7359), (5112, 5104), (5113, 5105), (5114, 5106), (5115, 5107), (5116, 5108),
  (5117, 5109), (7296, 1042), (7297, 1044), (7298, 1054), (7299, 1057), (7300, 1058),
  (7301, 1058), (7302, 1066), (7303, 1122), (7304, 42570), (7545, 42877), (7549, 11363),
  (7566, 42950), (7681, 7680), (7683, 7682), (7685, 7684), (7687, 7686), (7689, 7688),
  (7691, 7690), (7693, 7692), (7695, 7694), (7697, 7696), (7699, 7698), (7701, 7700),
  (7703, 7702), (7705, 7704), (7707, 7706), (7709, 7708), (7711, 7710), (7713, 7712),
  (7715, 7714), (7717, 7716), (7719, 7718), (7721, 7720), (7723, 7722), (7725, 7724),
  (7727, 7726), (7729, 7728), (7731, 7730), (7733, 7732), (7735, 7734), (7737, 7736),
  (7739, 7738), (7741, 7740), (7743, 7742), (7745, 7744), (7747, 7746), (7749, 7748),
  (7751, 7750), (7753, 7752), (7755, 7754), (7757, 7756), (7759, 7758), (7761, 7760),
  (7763, 7762), (7765, 7764), (7767, 7766), (7769, 7768), (7771, 7770), (7773, 7772),
  (7775, 7774), (7777, 7776), (7779, 7778), (7781, 7780), (7783, 7782), (7785, 7784),
  (7787, 7786), (7789, 7788), (7791, 7790), (7793, 7792), (7795, 7794), (7797, 7796),
  (7799, 7798), (7801, 7800), (7803, 7802), (7805, 7804), (7807, 7806), (7809, 7808),
  (7811, 7810), (7813, 7812), (7815, 7814), (7817, 7816), (7819, 7818), (7821, 7820),
  (7823, 7822), (7825, 7824), (7827, 7826), (7829, 7828), (7835, 7776), (7841, 7840),
  (7843, 7842), (7845, 7844), (7847, 7846), (7849, 7848), (7851, 7850), (7853, 7852),
  (7855, 7854), (7857, 7856), (7859, 7858), (7861, 7860), (7863, 7862), (7865, 7864),
  (7867, 7866), (7869, 7868), (7871, 7870), (7873, 7872), (7875, 7874), (7877, 7876),
  (7879, 7878), (7881, 7880), (7883, 7882), (7885, 7884), (7887, 7886), (7889, 7888),
  (7891, 7890), (7893, 7892), (7895, 7894), (7897, 7896), (7899, 7898), (7901, 7900),
  (7903, 7902), (7905, 7904), (7907, 7906), (7909, 7908), (7911, 7910), (7913, 7912),
  (7915, 7914), (7917, 7916), (7919, 7918), (7921, 7920), (7923, 7922), (7925, 7924),
  (7927, 7926), (7929, 7928), (7931, 7930), (7933, 7932), (7935, 7934), (7936, 7944),
  (7937, 7945), (7938, 7946), (7939, 7947), (7940, 7948), (7941, 7949), (7942, 7950),
  (7943, 7951), (7952, 7960), (7953, 7961), (7954, 7962), (7955, 7963), (7956, 7964),
  (7957, 7965), (7968, 7976), (7969, 7977), (7970, 7978), (7971, 7979), (7972, 7980),
  (7973, 7981), (7974, 7982), (7975, 7983), (7984, 7992), (7985, 7993), (7986, 7994),
  (7987, 7995), (7988, 7996), (7989, 7997), (7990, 7998), (7991, 7999), (8000, 8008),
  (8001, 8009), (8002, 8010), (8003, 8011), (8004, 8012), (8005, 8013), (8017, 8025),
  (8019, 8027), (8021, 8029), (8023, 8031), (8032, 8040), (8033, 8041), (8034, 8042),
  (8035, 8043), (8036, 8044), (8037, 8045), (8038, 8046), (8039, 8047), (8048, 8122),
  (8049, 8123), (8050, 8136), (8051, 8137), (8052, 8138), (8053, 8139), (8054, 8154),
  (8055, 8155), (8056, 8184), (8057, 8185), (8058, 8170), (8059, 8171), (8060, 8186),
  (8061, 8187), (8112, 8120), (8113, 8121), (8126, 921), (8144, 8152), (8145, 8153),
  (8160, 8168), (8161, 8169), (8165, 8172), (8526, 8498), (8560, 8544), (8561, 8545),
  (8562, 8546), (8563, 8547), (8564, 8548), (8565, 8549), (8566, 8550), (8567, 8551),
  (8568, 8552), (8569, 8553), (8570, 8554), (8571, 8555), (8572, 8556), (8573, 8557),
  (8574, 8558), (8575, 8559), (8580, 8579), (9424, 9398), (9425, 9399), (9426, 9400),
  (9427, 9401), (9428, 9402), (9429, 9403), (9430, 9404), (9431, 9405), (9432, 9406),
  (9433, 9407), (9434, 9408), (9435, 9409), (9436, 9410), (9437, 9411), (9438, 9412),
  (9439, 9413), (9440, 9414), (9441, 9415), (9442, 9416), (9443, 9417), (9444, 9418),
  (9445, 9419), (9446, 9420), (9447, 9421), (9448, 9422), (9449, 9423), (11312, 11264),
  (11313, 11265), (11314, 11266), (11315, 11267), (11316, 11268), (11317, 11269), (11318, 11270),
  (11319, 11271), (11320, 11272), (11321, 11273), (11322, 11274), (11323, 11275), (11324, 11276),
  (11325, 11277), (11326, 11278), (11327, 11279), (11328, 11280), (11329, 11281), (11330, 11282),
  (11331, 11283), (11332, 11284), (11333, 11285), (11334, 11286), (11335, 11287), (11336, 11288),
  (11337, 11289), (11338, 11290), (11339, 11291), (11340, 11292), (11341, 11293), (11342, 11294),
  (11343, 11295), (11344, 11296), (11345, 11297), (11346, 11298), (11347, 11299), (11348, 11300),
  (11349, 11301), (11350, 11302), (11351, 11303), (11352, 11304), (11353, 11305), (11354, 11306),
  (11355, 11307), (11356, 11308), (11357, 11309), (11358, 11310), (11359, 11311), (11361, 11360),
  (11365, 570), (11366, 574), (11368, 11367), (11370, 11369), (11372, 11371), (11379, 11378),
  (11382, 11381), (11393, 11392), (11395, 11394), (11397, 11396), (11399, 11398), (11401, 11400),
  (11403, 11402), (11405, 11404), (11407, 11406), (11409, 11408), (11411, 11410), (11413, 11412),
  (11415, 11414), (11417, 11416), (11419, 11418), (11421, 11420), (11423, 11422), (11425, 11424),
  (11427, 11426), (11429, 11428), (11431, 11430), (11433, 11432), (11435, 11434), (11437, 11436),
  (11439, 11438), (11441, 11440), (11443, 11442), (11445, 11444), (11447, 11446), (11449, 11448),
  (11451, 11450), (11453, 11452), (11455, 11454), (11457, 11456), (11459, 11458), (11461, 11460),
  (11463, 11462), (11465, 11464), (11467, 11466), (11469, 11468), (11471, 11470), (11473, 11472),
  (11475, 11474), (11477, 11476), (11479, 11478), (11481, 11480), (11483, 11482), (11485, 11484),
  (11487, 11486), (11489, 11488), (11491, 11490), (11500, 11499), (11502, 11501), (11507, 11506),
  (11520, 4256), (11521, 4257), (11522, 4258), (11523, 4259), (11524, 4260), (11525, 4261),
  (11526, 4262), (11527, 4263), (11528, 4264), (11529, 4265), (11530, 4266), (11531, 4267),
  (11532, 4268), (11533, 4269), (11534, 4270), (11535, 4271), (11536, 4272), (11537, 4273),
  (11538, 4274), (11539, 4275), (11540, 4276), (11541, 4277), (11542, 4278), (11543, 4279),
  (11544, 4280), (11545, 4281), (11546, 4282), (11547, 4283), (11548, 4284), (11549, 4285),
  (11550, 4286), (11551, 4287), (11552, 4288), (11553, 4289), (11554, 4290), (11555, 4291),
  (11556, 4292), (11557, 4293), (11559, 4295), (11565, 4301), (42561, 42560), (42563, 42562),
  (42565, 42564), (42567, 42566), (42569, 42568), (42571, 42570), (42573, 42572), (42575, 42574),
  (42577, 42576), (42579, 42578), (42581, 42580), (42583, 42582), (42585, 42584), (42587, 42586),
  (42589, 42588), (42591, 42590), (42593, 42592), (42595, 42594), (42597, 42596), (42599, 42598),
  (42601, 42600), (42603, 42602), (42605, 42604), (42625, 42624), (42627, 42626), (42629, 42628),
  (42631, 42630), (42633, 42632), (42635, 42634), (42637, 42636), (42639, 42638), (42641, 42640),
  (42643, 42642), (42645, 42644), (42647, 42646), (42649, 42648), (42651, 42650), (42787, 42786),
  (42789, 42788), (42791, 42790), (42793, 42792), (42795, 42794), (42797, 42796), (42799, 42798),
  (42803, 42802), (42805, 42804), (42807, 42806), (42809, 42808), (42811, 42810), (42813, 42812),
  (42815, 42814), (42817, 42816), (42819, 42818), (42821, 42820), (42823, 42822), (42825, 42824),
  (42827, 42826), (42829, 42828), (42831, 42830), (42833, 42832), (42835, 42834), (42837, 42836),
  (42839, 42838), (42841, 42840), (42843, 42842), (42845, 42844), (42847, 42846), (42849, 42848),
  (42851, 42850), (42853, 42852), (42855, 42854), (42857, 42856), (42859, 42858), (42861, 42860),
  (42863, 42862), (42874, 42873), (42876, 42875), (42879, 42878), (42881, 42880), (42883, 42882),
  (42885, 42884), (42887, 42886), (42892, 42891), (42897, 42896), (42899, 42898), (42900, 42948),
  (42903, 42902), (42905, 42904), (42907, 42906), (42909, 42908), (42911, 42910), (42913, 42912),
  (42915, 42914), (42917, 42916), (42919, 42918), (42921, 42920), (42933, 42932), (42935, 42934),
  (42937, 42936), (42939, 42938), (42941, 42940), (42943, 42942), (42945, 42944), (42947, 42946),
  (42952, 42951), (42954, 42953), (42961, 42960), (42967, 42966), (42969, 42968), (42998, 42997),
  (43859, 42931), (43888, 5024), (43889, 5025), (43890, 5026), (43891, 5027), (43892, 5028),
  (43893, 5029), (43894, 5030), (43895, 5031), (43896, 5032), (43897, 5033), (43898, 5034),
  (43899, 5035), (43900, 5036), (43901, 5037), (43902, 5038), (43903, 5039), (43904, 5040),
  (43905, 5041), (43906, 5042), (43907, 5043), (43908, 5044), (43909, 5045), (43910, 5046),
  (43911, 5047), (43912, 5048), (43913, 5049), (43914, 5050), (43915, 5051), (43916, 5052),
  (43917, 5053), (43918, 5054), (43919, 5055), (43920, 5056), (43921, 5057), (43922, 5058),
  (43923, 5059), (43924, 5060), (43925, 5061), (43926, 5062), (43927, 5063), (43928, 5064),
  (43929, 5065), (43930, 5066), (43931, 5067), (43932, 5068), (43933, 5069), (43934, 5070),
  (43935, 5071), (43936, 5072), (43937, 5073), (43938, 5074), (43939, 5075), (43940, 5076),
  (43941, 5077), (43942, 5078), (43943, 5079), (43944, 5080), (43945, 5081), (43946, 5082),
  (43947, 5083), (43948, 5084), (43949, 5085), (43950, 5086), (43951, 5087), (43952, 5088),
  (43953, 5089), (43954, 5090), (43955, 5091), (43956, 5092), (43957, 5093), (43958, 5094),
  (43959, 5095), (43960, 5096), (43961, 5097), (43962, 5098), (43963, 5099), (43964, 5100),
  (43965, 5101), (43966, 5102), (43967, 5103), (65345, 65313), (65346, 65314), (65347, 65315),
  (65348, 65316), (65349, 65317), (65350, 65318), (65351, 65319), (65352, 65320), (65353, 65321),
  (65354, 65322), (65355, 65323), (65356, 65324), (65357, 65325), (65358, 65326), (65359, 65327),
  (65360, 65328), (65361, 65329), (65362, 65330), (65363, 65331), (65364, 65332), (65365, 65333),
  (65366, 65334), (65367, 65335), (65368, 65336), (65369, 65337), (65370, 65338)
]

/-- Lookup in the ascending-sorted uppercase table, stopping as soon as the
key has been passed. -/
def lookupUpper (n : Nat) : List (Nat × Nat) → Option Nat
  | [] => none
  | (k, v) :: rest =>
    if n < k then none
    else if n = k then some v
    else lookupUpper n rest

/-- ECMAScript `Canonicalize` for a case-insensitive regex without the `u`
flag (the code builds `new RegExp(..., "gi")`): the character's
single-character Unicode uppercase; characters with no such uppercase — and
non-ASCII characters whose uppercase would be ASCII — stay unchanged. -/
def jsCanonicalize (c : Char) : Char :=
  if c.toNat <= 127 then
    if 97 <= c.toNat && c.toNat <= 122 then Char.ofNat (c.toNat - 32) else c
  else
    match lookupUpper c.toNat jsUpperTable with
    | some u => Char.ofNat u
    | none => c

/-- Case-insensitive comparison of two characters, as under the regex `i`
flag: both characters are canonicalized and compared, so accented letters
case-fold as the JS engine does (the lowercase and uppercase e-acute
match). -/
def canonEq (a b : Char) : Bool := jsCanonicalize a = jsCanonicalize b

/-- Tries to match `pat` case-insensitively against a prefix of the
remainder; on success returns the actual characters of the subject that were
matched. -/
def ciTake : List Char → List Char → Option (List Char)
  | [], _ => some []
  | _ :: _, [] => none
  | p :: ps, r :: rs =>
    if canonEq p r then (ciTake ps rs).map (fun t => r :: t) else none

/-- Word-character test on an optional character; `none` (the edge of the
string) counts as a non-word character. -/
def isWordCharOpt : Option Char → Bool
  | some c => isJsWordChar c
  | none => false

/-- The ECMAScript word boundary `\b` between a left and a right character:
exactly one side is a word character. -/
def boundaryAt (left right : Option Char) : Bool :=
  isWordCharOpt left != isWordCharOpt right

/-- Matcher for the highlighter's pattern.  The target is escaped in the
source, so the pattern matches the target literally (case-insensitively);
when the target is a single word, both ends of the match must lie on word
boundaries. -/
def hlMatch (target : List Char) (isWordTarget : Bool) (before rem : List Char) :
    Option (List Char) :=
  match ciTake target rem with
  | none => none
  | some m =>
    if isWordTarget then
      if boundaryAt before.getLast? m.head? &&
          boundaryAt m.getLast? ((rem.drop m.length).head?) then some m
      else none
    else some m

/-- Model of `highlightTargetText`: every (word-boundary-respecting, when the
target is a single word) case-insensitive match of the target is replaced by
the replacement template `<b>target</b>` — which, being a JS string
replacement, interprets dollar substitution patterns contained in the
target. -/
def highlightTargetText (sentence targetText : String) : String :=
  let isW := wordShape (jsTrim targetText.data)
  let tmpl := "<b>".data ++ targetText.data ++ "</b>".data
  String.mk (replaceScanG (hlMatch targetText.data isW) (getSubstitution tmpl)
    (sentence.data.length + 1) [] sentence.data)

/-- The specification's description of the highlighter: every match is
replaced by the bold-wrapped target verbatim. -/
def literalHighlight (sentence targetText : String) : String :=
  let isW := wordShape (jsTrim targetText.data)
  let tmpl := "<b>".data ++ targetText.data ++ "</b>".data
  String.mk (replaceScanG (hlMatch targetText.data isW) (fun _ _ _ => tmpl)
    (sentence.data.length + 1) [] sentence.data)

/-- Whether the scan's matcher matches at any position of the remainder. -/
def hasMatchAnywhere (matchAt : List Char → List Char → Option (List Char)) :
    List Char → List Char → Bool
  | before, [] => (matchAt before []).isSome
  | before, c :: cs =>
    (matchAt before (c :: cs)).isSome || hasMatchAnywhere matchAt (before ++ [c]) cs

/-! Translation post-processing (`translateSentence`, part_001 lines
106-124). -/

/-- Scans for the closing quote of a quoted segment: returns the characters
up to (excluding) the next double quote and the remainder after it, failing
if a line terminator or the end of the string comes first (the lazy `(.*?)`
of the pattern cannot cross a line terminator). -/
def findClose : List Char → Option (List Char × List Char)
  | [] => none
  | c :: cs =>
    if c = quoteChar then some ([], cs)
    else if isLineTerm c then none
    else
      match findClose cs with
      | none => none
      | some (inside, rest) => some ((c :: inside), rest)

/-- Fueled scan collecting the matches of `/"(.*?)"/g`: maximal
left-to-right pairing of double quotes within a line; each returned segment
includes its wrapping quotes, as a JS match does. -/
def quotedSegsGo : Nat → List Char → List (List Char)
  | 0, _ => []
  | _ + 1, [] => []
  | fuel + 1, c :: cs =>
    if c = quoteChar then
      match findClose cs with
      | some (inside, rest) => (quoteChar :: (inside ++ [quoteChar])) :: quotedSegsGo fuel rest
      | none => quotedSegsGo fuel cs
    else quotedSegsGo fuel cs

/-- The list of quoted segments of a reply (the JS
`translation.match(/"(.*?)"/g)`, with `null` modelled by the empty list). -/
def quotedSegments (l : List Char) : List (List Char) :=
  quotedSegsGo (l.length + 1) l

/-- Substring test, modelling `String.prototype.includes`. -/
def hasSubstring (pat : List Char) : List Char → Bool
  | [] => pat.isEmpty
  | c :: cs => pat.isPrefixOf (c :: cs) || hasSubstring pat cs

/-- The last element of a list of segments with a default, modelling
`matches[matches.length - 1]`. -/
def jsLast (l : List (List Char)) (d : List Char) : List Char :=
  match l.getLast? with
  | some x => x
  | none => d

/-- The quote strip at the end of `translateSentence`: when the text both
starts and ends with a double quote, `slice(1, -1)` removes the first and
last characters. -/
def stripWrappingQuotes (l : List Char) : List Char :=
  if l.head? = some quoteChar ∧ l.getLast? = some quoteChar then (l.drop 1).dropLast
  else l

/-- Model of the post-processing of `translateSentence` applied to the
generation client's reply: when the reply contains "translates to" and has
more than one quoted segment, the last quoted segment replaces the reply;
then a wrapping pair of double quotes, if present, is stripped. -/
def translateSentence (reply : String) : String :=
  let r := reply.data
  let segs := quotedSegments r
  let extracted :=
    if hasSubstring "translates to".data r ∧ 1 < segs.length then jsLast segs r else r
  String.mk (stripWrappingQuotes extracted)

/-! File-path sanitization (`createFilePath`, index.js lines 281-290,
part_001 lines 431-440, part_002 lines 363-372). -/

/-- A character kept by the second replace of `createFilePath`
(`/[^a-zA-Z0-9\-]/g` deleted): ASCII letters, digits and hyphen. -/
def isAsciiAlnumOrHyphen (c : Char) : Bool :=
  ('a' ≤ c && c ≤ 'z') || ('A' ≤ c && c ≤ 'Z') || ('0' ≤ c && c ≤ '9') || c = '-'

/-- Fueled model of `sentence.replace(/\s+/g, "-")`: every maximal
whitespace run becomes a single hyphen. -/
def replaceWsRunsGo : Nat → List Char → List Char
  | 0, l => l
  | _ + 1, [] => []
  | fuel + 1, c :: cs =>
    if isJsSpace c then '-' :: replaceWsRunsGo fuel (cs.dropWhile isJsSpace)
    else c :: replaceWsRunsGo fuel cs

/-- Model of the file name computed by `createFilePath`: whitespace runs
become hyphens, every remaining character outside `[a-zA-Z0-9-]` is deleted,
and `.mp3` is appended.  The directory part (`__dirname/speech_files`) is
environment-dependent and not modelled; the returned name is the final path
component. -/
def createFilePath (sentence : String) : String :=
  String.mk
    ((replaceWsRunsGo (sentence.data.length + 1) sentence.data).filter isAsciiAlnumOrHyphen
      ++ ".mp3".data)

/-! Speech synthesizer (`textToSpeech`, part_001 lines 137-179). -/

/-- Model of part_001's `textToSpeech`.  The ElevenLabs key (falsy when
missing or empty) and the outcome of the conversion call are passed in; the
function returns the bytes written to the audio file, or `none` when any
failure was caught by the surrounding `try`/`catch` (in which case no file is
written and no exception escapes). -/
def textToSpeech (elevenLabsApiKey : Option String)
    (convertOutcome : Except String (List Nat)) : Option (List Nat) :=
  match elevenLabsApiKey with
  | none => none
  | some key =>
    if key.isEmpty then none
    else
      match convertOutcome with
      | Except.error _ => none
      | Except.ok audio => some audio

/-! Run controllers. -/

/-- JS truthiness of an optional command-line argument: falsy when the
argument is absent or the empty string. -/
def jsFalsy : Option String → Bool
  | none => true
  | some s => s.isEmpty

/-- The quoted-argument test of part_001's `run`:
`targetText.startsWith('"') && targetText.endsWith('"')` (true also for the
single-character string consisting of one double quote). -/
def isQuotedArg (s : String) : Bool :=
  s.data.head? == some quoteChar && s.data.getLast? == some quoteChar

/-- Outcomes of the external services during one run, passed to the run
controllers as an oracle: the three generation results, whether the speech
service returned audio, and whether the flashcard store accepted the
notes. -/
structure PipelineEnv where
  genSentence : String
  genDefinition : String
  genTranslation : String
  ttsOk : Bool
  storeOk : Bool
deriving DecidableEq

/-- Observable effects of one run: fatal usage exit, whether speech
synthesis was attempted, whether an audio file was written, and whether each
of the two Anki pushes was attempted and accepted. -/
structure RunTrace where
  usageErrorExit : Bool
  ttsAttempted : Bool
  audioWritten : Bool
  primaryPushAttempted : Bool
  primaryNoteSubmitted : Bool
  bilingualPushAttempted : Bool
  bilingualNoteSubmitted : Bool
deriving DecidableEq

namespace IndexJs

/-- Model of `run` in src/index.js lines 292-335: after the usage check the
pipeline proceeds unconditionally — sentence generation, definition,
translation, `createFilePath`, `textToSpeech` and
`pushSentenceAndAudioToAnki` are all executed with no test of the generated
sentence. -/
def run (targetWord difficulty : Option String) (env : PipelineEnv) : RunTrace :=
  if jsFalsy targetWord || jsFalsy difficulty then
    ⟨true, false, false, false, false, false, false⟩
  else
    ⟨false, true, env.ttsOk, true, env.storeOk, false, false⟩

end IndexJs

namespace PhrasePipeline

/-- Model of `run` in src/unnamed/part_001 lines 442-523.  After the usage
check: a quoted argument takes the quoted branch (definition, translation and
speech synthesis on the literal text; both Anki pushes are commented out in
the source); otherwise the sentence is generated and — only when it is
non-empty — translation, speech synthesis and both Anki pushes follow.  The
definition request happens before the emptiness test and is not recorded in
the trace. -/
def run (targetText difficulty : Option String) (env : PipelineEnv) : RunTrace :=
  if jsFalsy targetText || jsFalsy difficulty then
    ⟨true, false, false, false, false, false, false⟩
  else if isQuotedArg (targetText.getD "") then
    ⟨false, true, env.ttsOk, false, false, false, false⟩
  else if env.genSentence = "" then
    ⟨false, false, false, false, false, false, false⟩
  else
    ⟨false, true, env.ttsOk, true, env.storeOk, true, env.storeOk⟩

end PhrasePipeline

/-! Helper lemmas. -/

/-- An element returned by `getLast?` is a member of the list. -/
theorem mem_of_getLast?_eq {α : Type} {l : List α} {a : α} (h : l.getLast? = some a) :
    a ∈ l := by
  induction l with
  | nil => simp at h
  | cons b bs ih =>
    cases bs with
    | nil =>
      simp only [List.getLast?_singleton, Option.some.injEq] at h
      rw [h]
      exact List.mem_cons_self a []
    | cons c cs =>
      rw [List.getLast?_cons_cons] at h
      exact List.mem_cons_of_mem b (ih h)

/-- A replacement template containing no dollar character is copied
verbatim by `getSubstAux`. -/
theorem getSubstAux_of_no_dollar (matched before after : List Char) :
    ∀ tmpl : List Char, dollarChar ∉ tmpl →
      getSubstAux matched before after tmpl = tmpl := by
  intro tmpl
  induction tmpl with
  | nil => intro _; rfl
  | cons c cs ih =>
    intro h
    have hc : ¬ c = dollarChar := fun hcc => h (List.mem_cons.mpr (Or.inl hcc.symm))
    have hcs : dollarChar ∉ cs := fun hm => h (List.mem_cons_of_mem _ hm)
    cases cs with
    | nil => rfl
    | cons d ds =>
      simp only [getSubstAux]
      rw [if_neg hc, ih hcs]

/-- Two replacement scans with the same matcher and pointwise equal
replacement functions produce the same output. -/
theorem replaceScanG_congr (matchAt : List Char → List Char → Option (List Char))
    (rep1 rep2 : List Char → List Char → List Char → List Char)
    (hrep : ∀ m b a, rep1 m b a = rep2 m b a) :
    ∀ (fuel : Nat) (before rem : List Char),
      replaceScanG matchAt rep1 fuel before rem = replaceScanG matchAt rep2 fuel before rem := by
  intro fuel
  induction fuel with
  | zero => intro before rem; rfl
  | succ f ih =>
    intro before rem
    cases rem with
    | nil =>
      simp only [replaceScanG]
      cases matchAt before [] with
      | none => rfl
      | some m => exact hrep [] before []
    | cons c cs =>
      simp only [replaceScanG]
      cases matchAt before (c :: cs) with
      | none => simp [ih]
      | some m =>
        cases m with
        | nil => simp [hrep, ih]
        | cons x xs => simp [hrep, ih]

/-- When the matcher matches nowhere in the remainder, the replacement scan
returns the remainder unchanged, whatever the fuel. -/
theorem replaceScanG_of_no_match (matchAt : List Char → List Char → Option (List Char))
    (rep : List Char → List Char → List Char → List Char) :
    ∀ (rem : List Char) (fuel : Nat) (before : List Char),
      hasMatchAnywhere matchAt before rem = false →
      replaceScanG matchAt rep fuel before rem = rem := by
  intro rem
  induction rem with
  | nil =>
    intro fuel before h
    cases fuel with
    | zero => rfl
    | succ f =>
      simp only [hasMatchAnywhere] at h
      simp only [replaceScanG]
      cases hm : matchAt before [] with
      | none => rfl
      | some m => rw [hm] at h; simp at h
  | cons c cs ih =>
    intro fuel before h
    simp only [hasMatchAnywhere, Bool.or_eq_false_iff] at h
    obtain ⟨h1, h2⟩ := h
    cases fuel with
    | zero => rfl
    | succ f =>
      simp only [replaceScanG]
      cases hm : matchAt before (c :: cs) with
      | none => rw [ih f (before ++ [c]) h2]
      | some m => rw [hm] at h1; simp at h1

/-- Every segment collected by the quoted-segment scan starts and ends with
a double quote. -/
theorem quotedSegsGo_shape :
    ∀ (fuel : Nat) (l seg : List Char), seg ∈ quotedSegsGo fuel l →
      seg.head? = some quoteChar ∧ seg.getLast? = some quoteChar := by
  intro fuel
  induction fuel with
  | zero => intro l seg h; simp [quotedSegsGo] at h
  | succ f ih =>
    intro l seg h
    cases l with
    | nil => simp [quotedSegsGo] at h
    | cons c cs =>
      simp only [quotedSegsGo] at h
      by_cases hc : c = quoteChar
      · rw [if_pos hc] at h
        cases hfc : findClose cs with
        | none =>
          rw [hfc] at h
          exact ih cs seg h
        | some pr =>
          obtain ⟨inside, rest⟩ := pr
          rw [hfc] at h
          rcases List.mem_cons.mp h with h1 | h2
          · rw [h1]
            refine ⟨rfl, ?_⟩
            rw [show quoteChar :: (inside ++ [quoteChar]) =
              (quoteChar :: inside) ++ [quoteChar] from rfl]
            exact List.getLast?_concat _
          · exact ih rest seg h2
      · rw [if_neg hc] at h
        exact ih cs seg h

/-- The last element taken by `jsLast` belongs to the list when the list is
non-empty. -/
theorem jsLast_mem : ∀ (l : List (List Char)) (d : List Char), l ≠ [] → jsLast l d ∈ l := by
  intro l
  induction l with
  | nil => intro d h; exact absurd rfl h
  | cons a as ih =>
    intro d h
    cases as with
    | nil => simp [jsLast, List.getLast?_singleton]
    | cons b bs =>
      have heq : jsLast (a :: b :: bs) d = jsLast (b :: bs) d := by
        simp [jsLast, List.getLast?_cons_cons]
      rw [heq]
      exact List.mem_cons_of_mem a (ih d (by simp))

/-- Filtering with a predicate yields a list all of whose elements satisfy
the predicate. -/
theorem all_filter_self (p : Char → Bool) (l : List Char) : (l.filter p).all p = true := by
  rw [List.all_eq_true]
  intro a ha
  exact List.of_mem_filter ha

/-- A trimmed text that ends in sentence punctuation cannot pass the
single-word test, since `.`, `!` and `?` are outside the `[\w\-']` class. -/
theorem wordShape_false_of_punct {t : List Char} (h : endsSentencePunct t = true) :
    wordShape t = false := by
  cases hl : t.getLast? with
  | none => simp [endsSentencePunct, hl] at h
  | some c =>
    have hc : c = '.' ∨ c = '!' ∨ c = '?' := by
      simp only [endsSentencePunct, hl] at h
      simpa [or_assoc] using h
    have hmem : c ∈ t := mem_of_getLast?_eq hl
    have hcf : isWordTokenChar c = false := by
      rcases hc with rfl | rfl | rfl <;> decide
    have hall : t.all isWordTokenChar = false := by
      cases hall2 : t.all isWordTokenChar with
      | false => rfl
      | true =>
        have hcv := (List.all_eq_true.mp hall2) c hmem
        rw [hcf] at hcv
        exact absurd hcv (by simp)
    simp [wordShape, hall]

/-- A replaceAll whose replacement value contains no dollar character agrees
with the literal all-occurrence replacement. -/
theorem jsReplaceAll_eq_literal_of_no_dollar (template placeholder value : String)
    (h : dollarChar ∉ value.data) :
    jsReplaceAll template placeholder value = literalReplaceAll template placeholder value := by
  unfold jsReplaceAll literalReplaceAll
  congr 1
  exact replaceScanG_congr _ _ _
    (fun m b a => getSubstAux_of_no_dollar m b a value.data h) _ _ _

/-- A highlight whose target contains no dollar character agrees with the
literal bold-wrapping replacement. -/
theorem highlight_eq_literal_of_no_dollar (sentence targetText : String)
    (h : dollarChar ∉ targetText.data) :
    highlightTargetText sentence targetText = literalHighlight sentence targetText := by
  simp only [highlightTargetText, literalHighlight]
  congr 1
  apply replaceScanG_congr
  intro m b a
  apply getSubstAux_of_no_dollar
  intro hx
  rcases List.mem_append.mp hx with hx1 | hx2
  · rcases List.mem_append.mp hx1 with hx3 | hx4
    · exact absurd hx3 (by decide)
    · exact h hx4
  · exact absurd hx2 (by decide)

/-! Claim theorems. -/

/-- Claim C1, counterexample.  In the run controller of `src/index.js` a run
whose generated sentence is the empty string does not abort: speech synthesis
is still attempted and the Anki push is still attempted and (when the store
accepts) a note is submitted, contradicting the claim that the pipeline
aborts before speech synthesis and publishing for every run. -/
theorem claim_C1_counterexample :
    (IndexJs.run (some "chat") (some "a2")
      ⟨"", "", "", false, true⟩).ttsAttempted = true
    ∧ (IndexJs.run (some "chat") (some "a2")
      ⟨"", "", "", false, true⟩).primaryPushAttempted = true
    ∧ (IndexJs.run (some "chat") (some "a2")
      ⟨"", "", "", false, true⟩).primaryNoteSubmitted = true := by
  refine ⟨by decide, by decide, by decide⟩

/-- Claim C1, amended.  In the run controller of `src/unnamed/part_001`
(non-quoted input): when the generated sentence is empty the run performs no
speech synthesis, writes no audio file and attempts no Anki push; when the
generated sentence is non-empty, synthesis and both pushes are attempted for
every outcome of the other steps (their failures do not abort the run).  The
controllers of `src/index.js` and `src/unnamed/part_002` lack the emptiness
test and proceed unconditionally. -/
theorem claim_C1 :
    (∀ (targetText difficulty : Option String) (env : PipelineEnv),
        jsFalsy targetText = false → jsFalsy difficulty = false →
        isQuotedArg (targetText.getD "") = false →
        env.genSentence = "" →
        PhrasePipeline.run targetText difficulty env =
          ⟨false, false, false, false, false, false, false⟩)
    ∧ (∀ (targetText difficulty : Option String) (env : PipelineEnv),
        jsFalsy targetText = false → jsFalsy difficulty = false →
        isQuotedArg (targetText.getD "") = false →
        env.genSentence ≠ "" →
        (PhrasePipeline.run targetText difficulty env).ttsAttempted = true ∧
        (PhrasePipeline.run targetText difficulty env).primaryPushAttempted = true ∧
        (PhrasePipeline.run targetText difficulty env).bilingualPushAttempted = true) := by
  constructor
  · intro tt d env h1 h2 hq hg
    simp [PhrasePipeline.run, h1, h2, hq, hg]
  · intro tt d env h1 h2 hq hg
    simp [PhrasePipeline.run, h1, h2, hq, hg]

/-- Witness for claim C1's amended theorem at a concrete aborted run. -/
theorem claim_C1_witness :
    PhrasePipeline.run (some "chat") (some "b1")
      ⟨"", "une definition", "a translation", true, true⟩ =
      ⟨false, false, false, false, false, false, false⟩ :=
  claim_C1.1 (some "chat") (some "b1")
    ⟨"", "une definition", "a translation", true, true⟩
    (by decide) (by decide) (by decide) rfl

/-- Claim C2.  Every input whose trimmed text passes the single-token test
`^[\w\-']+$` is classified as a word. -/
theorem claim_C2 (s : String) (h : wordShape (jsTrim s.data) = true) :
    determineInputType s = "word" := by
  simp [determineInputType, h]

/-- Witness for claim C2 at the concrete input `bonjour`. -/
theorem claim_C2_witness :
    wordShape (jsTrim "bonjour".data) = true ∧ determineInputType "bonjour" = "word" :=
  ⟨by decide, claim_C2 "bonjour" (by decide)⟩

/-- Claim C3, counterexample.  The input `Le\nchat.` ends in a period and
contains two word tokens, yet the classifier returns `phrase`: the `.*` of
the sentence pattern does not match the newline separating the tokens. -/
theorem claim_C3_counterexample :
    determineInputType "Le\nchat." = "phrase"
    ∧ determineInputType "Le\nchat." ≠ "sentence"
    ∧ endsSentencePunct (jsTrim "Le\nchat.".data) = true
    ∧ 2 ≤ countWordTokens (jsTrim "Le\nchat.".data) := by
  refine ⟨by decide, by decide, by decide, by decide⟩

/-- Claim C3, amended.  Every input whose trimmed text ends in `.`, `!` or
`?` and contains at least two word tokens with no line terminator between
them is classified `sentence` (in particular `Le chat dort.`); inputs that
are neither word- nor sentence-shaped are classified `phrase`; and the
classifier is total, always returning one of the three kinds. -/
theorem claim_C3 :
    (∀ s : String, endsSentencePunct (jsTrim s.data) = true →
        hasTwoTokensSameLine (jsTrim s.data) = true →
        determineInputType s = "sentence")
    ∧ determineInputType "Le chat dort." = "sentence"
    ∧ (∀ s : String, wordShape (jsTrim s.data) = false →
        (endsSentencePunct (jsTrim s.data) && hasTwoTokensSameLine (jsTrim s.data)) = false →
        determineInputType s = "phrase")
    ∧ (∀ s : String, determineInputType s = "word" ∨ determineInputType s = "sentence" ∨
        determineInputType s = "phrase") := by
  refine ⟨?_, by decide, ?_, ?_⟩
  · intro s h1 h2
    have hw := wordShape_false_of_punct h1
    simp [determineInputType, hw, h1, h2]
  · intro s hw hns
    simp [determineInputType, hw, hns]
  · intro s
    cases hw : wordShape (jsTrim s.data) with
    | true => exact Or.inl (by simp [determineInputType, hw])
    | false =>
      cases hs : endsSentencePunct (jsTrim s.data) && hasTwoTokensSameLine (jsTrim s.data) with
      | true => exact Or.inr (Or.inl (by simp [determineInputType, hw, hs]))
      | false => exact Or.inr (Or.inr (by simp [determineInputType, hw, hs]))

/-- Witness for claim C3's amended theorem at a concrete sentence input. -/
theorem claim_C3_witness : determineInputType "Il pleut beaucoup!" = "sentence" :=
  claim_C3.1 "Il pleut beaucoup!" (by decide) (by decide)

/-- Claim C4, counterexample.  A substitution value containing the JS
replacement pattern `$&` is not inserted verbatim: the Prompt Builder's
`replaceAll` substitutes the matched placeholder for `$&`, so the template
`<x> and <x>` with `<x>` mapped to `$&` yields `<x> and <x>` instead of
`$& and $&`. -/
theorem claim_C4_counterexample :
    promptBuild "<x> and <x>" [("<x>", "$&")] = "<x> and <x>"
    ∧ promptBuild "<x> and <x>" [("<x>", "$&")] ≠ "$& and $&" := by
  refine ⟨by decide, by decide⟩

/-- Claim C4, amended.  For every template and placeholder, and every value
containing no dollar character, the Prompt Builder replaces every occurrence
of the placeholder (not just the first) with the value — it agrees with the
literal all-occurrence replacement; in particular `<x> and <x>` with
`<x> → Y` yields `Y and Y`. -/
theorem claim_C4 :
    (∀ template placeholder value : String, dollarChar ∉ value.data →
        promptBuild template [(placeholder, value)] =
          literalReplaceAll template placeholder value)
    ∧ promptBuild "<x> and <x>" [("<x>", "Y")] = "Y and Y"
    ∧ literalReplaceAll "<x> and <x>" "<x>" "$&" = "$& and $&" := by
  refine ⟨?_, by decide, by decide⟩
  intro t p v h
  show jsReplaceAll t p v = literalReplaceAll t p v
  exact jsReplaceAll_eq_literal_of_no_dollar t p v h

/-- Witness for claim C4's amended theorem at a concrete substitution. -/
theorem claim_C4_witness :
    promptBuild "<a> b <a>" [("<a>", "Z")] = literalReplaceAll "<a> b <a>" "<a>" "Z" :=
  claim_C4.1 "<a> b <a>" "<a>" "Z" (by decide)

/-- Claim C5, counterexample.  The trailing-period strip is not idempotent:
`Bonjour..` becomes `Bonjour.` after one application and `Bonjour` after
two, so post-processing twice differs from post-processing once. -/
theorem claim_C5_counterexample :
    chatContentPostProcess "Bonjour.." = "Bonjour."
    ∧ chatContentPostProcess (chatContentPostProcess "Bonjour..") = "Bonjour"
    ∧ chatContentPostProcess (chatContentPostProcess "Bonjour..") ≠
        chatContentPostProcess "Bonjour.." := by
  refine ⟨by decide, by decide, by decide⟩

/-- Claim C5, amended.  The generation client's post-processing strips
exactly one trailing period when the reply ends with a period and otherwise
returns the reply unchanged (`Bonjour.` becomes `Bonjour`, `Bonjour` stays
`Bonjour`); it is idempotent on every reply that does not end in two
consecutive periods. -/
theorem claim_C5 :
    (∀ s : String, s.data.getLast? = some '.' →
        chatContentPostProcess s = String.mk s.data.dropLast)
    ∧ (∀ s : String, s.data.getLast? ≠ some '.' → chatContentPostProcess s = s)
    ∧ chatContentPostProcess "Bonjour." = "Bonjour"
    ∧ chatContentPostProcess "Bonjour" = "Bonjour"
    ∧ (∀ s : String,
        ¬ (s.data.getLast? = some '.' ∧ s.data.dropLast.getLast? = some '.') →
        chatContentPostProcess (chatContentPostProcess s) = chatContentPostProcess s) := by
  have p1 : ∀ s : String, s.data.getLast? = some '.' →
      chatContentPostProcess s = String.mk s.data.dropLast := by
    intro s h
    simp [chatContentPostProcess, stripTrailingPeriod, h]
  have p2 : ∀ s : String, s.data.getLast? ≠ some '.' → chatContentPostProcess s = s := by
    intro s h
    simp only [chatContentPostProcess, stripTrailingPeriod, if_neg h]
  refine ⟨p1, p2, by decide, by decide, ?_⟩
  intro s h
  by_cases h1 : s.data.getLast? = some '.'
  · have h2 : s.data.dropLast.getLast? ≠ some '.' := fun hx => h ⟨h1, hx⟩
    rw [p1 s h1]
    exact p2 (String.mk s.data.dropLast) h2
  · rw [p2 s h1]
    exact p2 s h1

/-- Witness for claim C5's amended theorem at a concrete reply. -/
theorem claim_C5_witness :
    chatContentPostProcess "Salut." = String.mk "Salut.".data.dropLast :=
  claim_C5.1 "Salut." (by decide)

/-- Claim C6.  Whenever the translation reply contains `translates to` and
has more than one quoted segment, the post-processing returns the last
quoted segment with its wrapping quotes removed; the reply
`The phrase "Hi" translates to "Salut"` yields `Salut`, and the reply
`"Bonjour"` yields `Bonjour` (wrapping quotes stripped). -/
theorem claim_C6 :
    (∀ reply : String,
        hasSubstring "translates to".data reply.data = true →
        1 < (quotedSegments reply.data).length →
        translateSentence reply =
          String.mk (((jsLast (quotedSegments reply.data) reply.data).drop 1).dropLast))
    ∧ translateSentence "The phrase \"Hi\" translates to \"Salut\"" = "Salut"
    ∧ translateSentence "\"Bonjour\"" = "Bonjour" := by
  refine ⟨?_, by decide, by decide⟩
  intro r h1 h2
  have hne : quotedSegments r.data ≠ [] := by
    intro hx
    rw [hx] at h2
    simp at h2
  have hmem : jsLast (quotedSegments r.data) r.data ∈ quotedSegments r.data :=
    jsLast_mem _ _ hne
  have hshape := quotedSegsGo_shape (r.data.length + 1) r.data _ hmem
  simp only [translateSentence]
  rw [if_pos ⟨h1, h2⟩]
  simp only [stripWrappingQuotes]
  rw [if_pos ⟨hshape.1, hshape.2⟩]

/-- Witness for claim C6 at a concrete explanatory reply. -/
theorem claim_C6_witness :
    translateSentence "A \"b\" translates to \"c\"" = "c" := by
  have h := claim_C6.1 "A \"b\" translates to \"c\"" (by decide) (by decide)
  exact h.trans (by decide)

/-- Claim C7, counterexample.  A target containing the JS replacement
pattern `$$` is not wrapped verbatim in bold markup: highlighting `$$`
inside `a$$b` yields `a<b>$</b>b` (the replacement template interprets `$$`
as a single dollar) instead of `a<b>$$</b>b`. -/
theorem claim_C7_counterexample :
    highlightTargetText "a$$b" "$$" = "a<b>$</b>b"
    ∧ highlightTargetText "a$$b" "$$" ≠ "a<b>$$</b>b" := by
  refine ⟨by decide, by decide⟩

/-- Claim C7, amended.  The highlighter wraps every (word-boundary-aware,
case-insensitive, also across accented letters) match in bold markup
provided the target contains no dollar character — it agrees with the
literal bold-wrapping replacement — and returns the sentence unchanged when
there is no match; concretely, `chat` in `Je vois le chat` is wrapped,
the capitalized accented `Été` is matched by the target `été`, `chat` is
not matched inside `chaton`, and `Le chien court` is returned unchanged. -/
theorem claim_C7 :
    highlightTargetText "Je vois le chat" "chat" = "Je vois le <b>chat</b>"
    ∧ highlightTargetText "Été magnifique" "été" = "<b>été</b> magnifique"
    ∧ highlightTargetText "Un chaton dort" "chat" = "Un chaton dort"
    ∧ highlightTargetText "Le chien court" "chat" = "Le chien court"
    ∧ (∀ sentence targetText : String, dollarChar ∉ targetText.data →
        highlightTargetText sentence targetText = literalHighlight sentence targetText)
    ∧ (∀ sentence targetText : String,
        hasMatchAnywhere
          (hlMatch targetText.data (wordShape (jsTrim targetText.data))) [] sentence.data
          = false →
        highlightTargetText sentence targetText = sentence) := by
  refine ⟨by decide, by decide, by decide, by decide, highlight_eq_literal_of_no_dollar, ?_⟩
  intro s t h
  simp only [highlightTargetText]
  rw [replaceScanG_of_no_match _ _ s.data (s.data.length + 1) [] h]

/-- Witness for claim C7's amended theorem at a concrete no-match input. -/
theorem claim_C7_witness :
    highlightTargetText "Bonsoir tout le monde" "xyz" = "Bonsoir tout le monde" :=
  claim_C7.2.2.2.2.2 "Bonsoir tout le monde" "xyz" (by decide)

/-- Claim C8.  The audio file name is derived deterministically from the
sentence (the function is pure): `Bonjour, le monde!` yields
`Bonjour-le-monde.mp3`, and for every sentence the result is a stem of ASCII
letters, digits and hyphens followed by the `.mp3` suffix. -/
theorem claim_C8 :
    createFilePath "Bonjour, le monde!" = "Bonjour-le-monde.mp3"
    ∧ (∀ s : String, ∃ stem : List Char,
        (createFilePath s).data = stem ++ ".mp3".data
        ∧ stem.all isAsciiAlnumOrHyphen = true) := by
  refine ⟨by decide, ?_⟩
  intro s
  exact ⟨(replaceWsRunsGo (s.data.length + 1) s.data).filter isAsciiAlnumOrHyphen, rfl,
    all_filter_self _ _⟩

/-- Claim C9.  The generation client converts every transport or API error
(and every malformed response whose field access would throw) into the empty
string, and the speech synthesizer converts a missing credential or a failed
conversion into `none` (no file written); both are total functions, so no
exception escapes the component boundary. -/
theorem claim_C9 :
    (∀ e : String, callChatGPT (Except.error e) = "")
    ∧ (∀ resp : ChatResponse, resp.choices = [] → callChatGPT (Except.ok resp) = "")
    ∧ (∀ (key : Option String) (e : String), textToSpeech key (Except.error e) = none)
    ∧ (∀ outcome : Except String (List Nat), textToSpeech none outcome = none) := by
  refine ⟨fun e => rfl, ?_, ?_, fun outcome => rfl⟩
  · intro resp h
    simp [callChatGPT, h]
  · intro key e
    cases key with
    | none => rfl
    | some k => cases hik : k.isEmpty <;> simp [textToSpeech, hik]

/-- Witness for claim C9 at a concrete malformed response. -/
theorem claim_C9_witness : callChatGPT (Except.ok ⟨[], 7⟩) = "" :=
  claim_C9.2.1 ⟨[], 7⟩ rfl

/-- Claim C10.  The run controller exits with the usage error exactly when
the target text or the difficulty argument is missing or empty; every other
difficulty string is accepted, and every difficulty other than `b1` and `b2`
(including the invalid `c1`) makes the phrase sentence generator use the
beginner (A2) difficulty label. -/
theorem claim_C10 :
    (∀ (targetText difficulty : Option String) (env : PipelineEnv),
        (PhrasePipeline.run targetText difficulty env).usageErrorExit =
          (jsFalsy targetText || jsFalsy difficulty))
    ∧ (∀ difficulty : String, difficulty ≠ "b1" → difficulty ≠ "b2" →
        difficultyLevel difficulty = "beginner (A2)")
    ∧ difficultyLevel "c1" = "beginner (A2)" := by
  refine ⟨?_, ?_, by decide⟩
  · intro tt d env
    cases h : jsFalsy tt || jsFalsy d with
    | true => simp [PhrasePipeline.run, h]
    | false =>
      rw [PhrasePipeline.run, if_neg (by simp [h])]
      split
      · rfl
      · split
        · rfl
        · rfl
  · intro d h1 h2
    simp [difficultyLevel, h1, h2]

/-- Witness for claim C10 at a concrete unrecognized difficulty code. -/
theorem claim_C10_witness : difficultyLevel "x1" = "beginner (A2)" :=
  claim_C10.2.1 "x1" (by decide) (by decide)

end EchoAnki
